import Mathlib

/-!
# BLIS configuration headers: resolution of kernel constants

A shallow embedding of three headers of the BLIS framework:

* `frame/include/bli_kernel_macro_defs.h`: guarded definitions
  (`#ifndef X` / `#define X d` / `#endif`) of the allocator functions and of the
  system constants, and the unconditional definitions derived from them;
* `config/cortexa9/bli_family_cortexa9.h`: the cortexa9 family header;
* `frame/include/bli_arch_config.h`: the ladder of `#ifdef BLIS_FAMILY_*`
  blocks that includes the family headers.

The preprocessor state that reaches `bli_kernel_macro_defs.h` is an `Env`: for
every guarded name, whether it is already defined and to what. Numeric
replacement texts are taken to be decimal literals. The product in
`BLIS_STACK_BUF_MAX_SIZE` is C integer arithmetic: a literal below 2^31 is an
`int` (32 bits), a larger one has the 64-bit type, and a product that does not
fit its type wraps around in two's complement, which is how the compiler folds
the constant (the C standard leaves signed overflow undefined). Literals from
2^63 on have no signed type and are outside the model. Function names are C
identifiers, kept as strings. The family
headers are processed (through `bli_arch_config.h`) before
`bli_kernel_macro_defs.h`, so what they define acts as an override of its
guarded defaults.
-/

namespace Blis

/-! ## Preprocessor environment -/

/-- Definitions in force when `bli_kernel_macro_defs.h` is entered. A field is
`none` when the name is not defined at that point, `some v` when it is defined
to `v`; the two memkind flags are plain `#define`d-or-not names. -/
structure Env where
  enable_memkind : Bool := false
  disable_memkind : Bool := false
  malloc_pool : Option String := none
  free_pool : Option String := none
  malloc_intl : Option String := none
  free_intl : Option String := none
  malloc_user : Option String := none
  free_user : Option String := none
  page_size : Option Nat := none
  simd_num_registers : Option Nat := none
  simd_size : Option Nat := none
  simd_align_size : Option Nat := none
  stack_buf_max_size : Option Nat := none
  deriving DecidableEq, Repr

/-- The environment in which nothing is defined beforehand. -/
def default_env : Env := {}

/-- A resolved name: its replacement, and whether that replacement was already
in force before the guarded block (so the `#ifndef` body was skipped). -/
structure Resolved (α : Type) where
  value : α
  overridden : Bool
  deriving DecidableEq, Repr

/-- The block `#ifndef X` / `#define X dflt` / `#endif`. -/
def ifndef_define {α : Type} (pre : Option α) (dflt : α) : Resolved α :=
  match pre with
  | some v => { value := v, overridden := true }
  | none => { value := dflt, overridden := false }

/-! ## `bli_kernel_macro_defs.h`: memory allocation (lines 60-123) -/

/-- Lines 63-65: `#ifdef BLIS_DISABLE_MEMKIND` / `#undef BLIS_ENABLE_MEMKIND`.
The value is whether `BLIS_ENABLE_MEMKIND` is still defined afterwards. -/
def BLIS_ENABLE_MEMKIND (env : Env) : Bool :=
  if env.disable_memkind then false else env.enable_memkind

/-- Lines 83-92. -/
def BLIS_MALLOC_POOL (env : Env) : Resolved String :=
  ifndef_define env.malloc_pool
    (if BLIS_ENABLE_MEMKIND env then "hbw_malloc" else "malloc")

/-- Lines 94-103. -/
def BLIS_FREE_POOL (env : Env) : Resolved String :=
  ifndef_define env.free_pool
    (if BLIS_ENABLE_MEMKIND env then "hbw_free" else "free")

/-- Lines 107-109. -/
def BLIS_MALLOC_INTL (env : Env) : Resolved String :=
  ifndef_define env.malloc_intl "malloc"

/-- Lines 111-113. -/
def BLIS_FREE_INTL (env : Env) : Resolved String :=
  ifndef_define env.free_intl "free"

/-- Lines 117-119. -/
def BLIS_MALLOC_USER (env : Env) : Resolved String :=
  ifndef_define env.malloc_user "malloc"

/-- Lines 121-123. -/
def BLIS_FREE_USER (env : Env) : Resolved String :=
  ifndef_define env.free_user "free"

/-! ## `bli_kernel_macro_defs.h`: system constants (lines 125-180) -/

/-- Lines 129-131. -/
def BLIS_PAGE_SIZE (env : Env) : Nat :=
  (ifndef_define env.page_size 4096).value

/-- Lines 137-139. -/
def BLIS_SIMD_NUM_REGISTERS (env : Env) : Nat :=
  (ifndef_define env.simd_num_registers 32).value

/-- Lines 144-146. -/
def BLIS_SIMD_SIZE (env : Env) : Nat :=
  (ifndef_define env.simd_size 64).value

/-- Lines 150-152: the default is the name `BLIS_SIMD_SIZE`, expanded at use. -/
def BLIS_SIMD_ALIGN_SIZE (env : Env) : Nat :=
  (ifndef_define env.simd_align_size (BLIS_SIMD_SIZE env)).value

/-- A C signed integer value together with the width in bits of its type. -/
structure CInt where
  bits : Nat
  val : Int
  deriving DecidableEq, Repr

/-- Two's-complement wraparound of `z` into the signed type of width `bits`. -/
def c_wrap (bits : Nat) (z : Int) : Int :=
  (z + 2 ^ (bits - 1)) % 2 ^ bits - 2 ^ (bits - 1)

/-- An unsuffixed decimal literal: `int` when it is below 2^31, otherwise the
64-bit signed type. -/
def c_literal (n : Nat) : CInt :=
  { bits := if n < 2147483648 then 32 else 64, val := n }

/-- The C operator `*` on signed integers: the operands are converted to the
wider of the two types and the product wraps around in that type. -/
def c_mul (a b : CInt) : CInt :=
  { bits := max a.bits b.bits, val := c_wrap (max a.bits b.bits) (a.val * b.val) }

/-- Lines 161-164: unless already defined, the name stands for
`( BLIS_SIMD_NUM_REGISTERS * BLIS_SIMD_SIZE * 2 )`, multiplied left to right. -/
def BLIS_STACK_BUF_MAX_SIZE (env : Env) : Int :=
  (ifndef_define (env.stack_buf_max_size.map c_literal)
    (c_mul (c_mul (c_literal (BLIS_SIMD_NUM_REGISTERS env))
      (c_literal (BLIS_SIMD_SIZE env))) (c_literal 2))).value.val

/-- Line 168 (unconditional). -/
def BLIS_STACK_BUF_ALIGN_SIZE (env : Env) : Nat := BLIS_SIMD_ALIGN_SIZE env

/-- Line 172 (unconditional). -/
def BLIS_HEAP_ADDR_ALIGN_SIZE (env : Env) : Nat := BLIS_SIMD_ALIGN_SIZE env

/-- Line 176 (unconditional). -/
def BLIS_HEAP_STRIDE_ALIGN_SIZE (env : Env) : Nat := BLIS_SIMD_ALIGN_SIZE env

/-- Line 180 (unconditional). -/
def BLIS_POOL_ADDR_ALIGN_SIZE (env : Env) : Nat := BLIS_PAGE_SIZE env

/-! ## `bli_family_cortexa9.h` -/

/-- The only active directive of the header is line 41,
`#define BLIS_SIMD_ALIGN_SIZE 16`; lines 44-72 are disabled by `#if 0`. The
definition is unconditional, so it is the one in force afterwards. -/
def bli_family_cortexa9 (env : Env) : Env :=
  { env with simd_align_size := some 16 }

/-- The `BLIS_FAMILY_*` names tested by the ladder, in source order. -/
inductive Family where
  | INTEL64 | AMD64 | X86_64
  | KNL | KNC | HASWELL | SANDYBRIDGE | PENRYN
  | ZEN | EXCAVATOR | STEAMROLLER | PILEDRIVER | BULLDOZER
  | CORTEXA57 | CORTEXA15 | CORTEXA9
  | POWER7 | BGQ
  | GENERIC
  deriving DecidableEq, Repr

/-- Preprocessor directives occurring in a header: a block
`#ifdef BLIS_FAMILY_f` / `#include "bli_family_f.h"` / `#endif`, or `#error`. -/
inductive Directive where
  | ifdef_include (f : Family)
  | error (msg : String)
  deriving DecidableEq, Repr

/-- Lines 113-184 of `bli_arch_config.h`, one entry per `#ifdef` block. -/
def family_ladder : List Directive :=
  [ .ifdef_include .INTEL64, .ifdef_include .AMD64, .ifdef_include .X86_64,
    .ifdef_include .KNL, .ifdef_include .KNC, .ifdef_include .HASWELL,
    .ifdef_include .SANDYBRIDGE, .ifdef_include .PENRYN,
    .ifdef_include .ZEN, .ifdef_include .EXCAVATOR, .ifdef_include .STEAMROLLER,
    .ifdef_include .PILEDRIVER, .ifdef_include .BULLDOZER,
    .ifdef_include .CORTEXA57, .ifdef_include .CORTEXA15, .ifdef_include .CORTEXA9,
    .ifdef_include .POWER7, .ifdef_include .BGQ,
    .ifdef_include .GENERIC ]

/-- Effect of a family header on the environment. Only `bli_family_cortexa9.h`
is available; the other headers are the parameter `others`. -/
def family_header (others : Family → Env → Env) : Family → Env → Env
  | .CORTEXA9 => bli_family_cortexa9
  | f => others f

/-- One directive, under the selection `sel` of defined `BLIS_FAMILY_*` names. -/
def run_directive (others : Family → Env → Env) (sel : Family → Bool) (env : Env) :
    Directive → Except String Env
  | .ifdef_include f => .ok (if sel f then family_header others f env else env)
  | .error msg => .error msg

/-- Directives run top to bottom; the first `#error` stops preprocessing. -/
def run_directives (others : Family → Env → Env) (sel : Family → Bool) :
    List Directive → Env → Except String Env
  | [], env => .ok env
  | d :: ds, env =>
    match run_directive others sel env d with
    | .ok env1 => run_directives others sel ds env1
    | .error msg => .error msg

/-- The family section of `bli_arch_config.h`. -/
def bli_arch_config (others : Family → Env → Env) (sel : Family → Bool) (env : Env) :
    Except String Env :=
  run_directives others sel family_ladder env

/-- Family headers that the ladder includes under `sel`, in inclusion order. -/
def included_headers (sel : Family → Bool) : List Family :=
  family_ladder.filterMap fun d =>
    match d with
    | .ifdef_include f => if sel f then some f else none
    | .error _ => none

/-- Selection with no `BLIS_FAMILY_*` name defined. -/
def no_family : Family → Bool := fun _ => false

/-- Selection with exactly `BLIS_FAMILY_f` defined. -/
def only_family (f : Family) : Family → Bool := fun g => decide (g = f)

/-- Number of `BLIS_FAMILY_*` names defined by a selection. -/
def selected_count (sel : Family → Bool) : Nat := (included_headers sel).length

/-- The environment produced by selecting cortexa9 alone with nothing else
defined beforehand. -/
def cortexa9_env : Env := bli_family_cortexa9 default_env

/-! ## Umbrella families -/

/-- Largest entry of a list (0 for the empty list). -/
def list_max : List Nat → Nat
  | [] => 0
  | x :: xs => max x (list_max xs)

/-- A sub-configuration that defines its register count and vector width. -/
def member_env (rw : Nat × Nat) : Env :=
  { simd_num_registers := some rw.1, simd_size := some rw.2 }

/-- An umbrella family following the comments at lines 133-136 and 141-143 of
`bli_kernel_macro_defs.h`: register count and vector width are set to the
maximum across the sub-configurations `(r_i, w_i)`. -/
def umbrella_env (members : List (Nat × Nat)) : Env :=
  { simd_num_registers := some (list_max (members.map Prod.fst)),
    simd_size := some (list_max (members.map Prod.snd)) }

/-! ## Shared lemmas -/

theorem le_list_max (l : List Nat) (a : Nat) (h : a ∈ l) : a ≤ list_max l := by
  induction l with
  | nil => cases h
  | cons x xs ih =>
    rcases List.mem_cons.mp h with rfl | h1
    · exact le_max_left _ _
    · exact le_trans (ih h1) (le_max_right _ _)

theorem run_directives_ok (others : Family → Env → Env) (sel : Family → Bool)
    (ds : List Directive) (hds : ∀ d ∈ ds, ∃ f, d = Directive.ifdef_include f) (env : Env) :
    run_directives others sel ds env
      = .ok ((ds.filterMap fun d =>
          match d with
          | .ifdef_include f => if sel f then some f else none
          | .error _ => none).foldl (fun e f => family_header others f e) env) := by
  induction ds generalizing env with
  | nil => rfl
  | cons d ds ih =>
    obtain ⟨f, rfl⟩ := hds _ (List.mem_cons_self _ _)
    have ih1 := ih (fun d hd => hds d (List.mem_cons_of_mem _ hd))
    cases hf : sel f <;>
      simp [run_directives, run_directive, hf, ih1, List.filterMap_cons]

theorem family_ladder_ifdef : ∀ d ∈ family_ladder, ∃ f, d = Directive.ifdef_include f := by
  intro d hd
  simp only [family_ladder, List.mem_cons, List.mem_singleton, List.not_mem_nil, or_false] at hd
  rcases hd with h | h | h | h | h | h | h | h | h | h | h | h | h | h | h | h | h | h | h <;>
    exact ⟨_, h⟩

theorem run_ladder_ok (others : Family → Env → Env) (sel : Family → Bool) (env : Env) :
    bli_arch_config others sel env
      = .ok ((included_headers sel).foldl (fun e f => family_header others f e) env) :=
  run_directives_ok others sel family_ladder family_ladder_ifdef env

theorem mem_included_headers (sel : Family → Bool) (f : Family) :
    f ∈ included_headers sel ↔ sel f = true := by
  have hlad : Directive.ifdef_include f ∈ family_ladder := by
    cases f <;> decide
  unfold included_headers
  rw [List.mem_filterMap]
  constructor
  · rintro ⟨d, -, hd⟩
    cases d with
    | ifdef_include g =>
      by_cases hg : sel g = true
      · simp only [hg, if_true, Option.some.injEq] at hd
        exact hd ▸ hg
      · simp [hg] at hd
    | error msg => simp at hd
  · intro hf
    exact ⟨.ifdef_include f, hlad, by simp [hf]⟩

theorem pool_aligned_imp (a : Nat) (h : a % 4096 = 0) : a % 64 = 0 ∧ a % 16 = 0 := by
  omega

theorem c_wrap_small (bits : Nat) (hb : bits = 32 ∨ bits = 64) (z : Int)
    (h0 : 0 ≤ z) (h1 : z < 2147483648) : c_wrap bits z = z := by
  rcases hb with rfl | rfl <;> simp only [c_wrap] <;> norm_num <;> omega

theorem c_literal_bits (n : Nat) : (c_literal n).bits = 32 ∨ (c_literal n).bits = 64 := by
  unfold c_literal
  split <;> simp

theorem c_mul_bits (a b : CInt) (ha : a.bits = 32 ∨ a.bits = 64)
    (hb : b.bits = 32 ∨ b.bits = 64) :
    (c_mul a b).bits = 32 ∨ (c_mul a b).bits = 64 := by
  rcases ha with ha | ha <;> rcases hb with hb | hb <;> simp [c_mul, ha, hb]

theorem stack_buf_product_exact (r w : Nat) (h : r * w * 2 < 2147483648) :
    (c_mul (c_mul (c_literal r) (c_literal w)) (c_literal 2)).val
      = ((r * w * 2 : Nat) : Int) := by
  have hrw : ((r * w : Nat) : Int) < 2147483648 := by
    have : r * w < 2147483648 := by omega
    exact_mod_cast this
  have h2 : ((r * w * 2 : Nat) : Int) < 2147483648 := by exact_mod_cast h
  have hinner : (c_mul (c_literal r) (c_literal w)).val = ((r * w : Nat) : Int) := by
    have hv : (c_literal r).val * (c_literal w).val = ((r * w : Nat) : Int) := by
      simp [c_literal]
    show c_wrap _ ((c_literal r).val * (c_literal w).val) = _
    rw [hv]
    exact c_wrap_small _ (c_mul_bits _ _ (c_literal_bits r) (c_literal_bits w)) _
      (Int.ofNat_nonneg _) hrw
  have hv2 : (c_mul (c_literal r) (c_literal w)).val * (c_literal 2).val
      = ((r * w * 2 : Nat) : Int) := by
    rw [hinner]
    simp [c_literal]
  show c_wrap _ ((c_mul (c_literal r) (c_literal w)).val * (c_literal 2).val) = _
  rw [hv2]
  exact c_wrap_small _
    (c_mul_bits _ _ (c_mul_bits _ _ (c_literal_bits r) (c_literal_bits w)) (c_literal_bits 2))
    _ (Int.ofNat_nonneg _) h2

theorem stack_buf_exact (env : Env) (h : env.stack_buf_max_size = none)
    (hb : BLIS_SIMD_NUM_REGISTERS env * BLIS_SIMD_SIZE env * 2 < 2147483648) :
    BLIS_STACK_BUF_MAX_SIZE env
      = ((BLIS_SIMD_NUM_REGISTERS env * BLIS_SIMD_SIZE env * 2 : Nat) : Int) := by
  have := stack_buf_product_exact _ _ hb
  simpa [BLIS_STACK_BUF_MAX_SIZE, ifndef_define, h] using this

/-! ## Stack-buffer size and primitive constants -/

/-- Claim C1, refuted as stated: with register count 65536 and vector width
32768 the product 65536 * 32768 * 2 = 4294967296 does not fit an `int` and the
resolved `BLIS_STACK_BUF_MAX_SIZE` is 0; and when `BLIS_STACK_BUF_MAX_SIZE` is
itself defined beforehand (here to 8192, primitives at their defaults) the
resolved value is that definition, not 32 * 64 * 2 = 4096. -/
theorem stack_buf_max_size_not_always_product :
    BLIS_SIMD_NUM_REGISTERS { simd_num_registers := some 65536, simd_size := some 32768 }
      = 65536
    ∧ BLIS_SIMD_SIZE { simd_num_registers := some 65536, simd_size := some 32768 } = 32768
    ∧ BLIS_STACK_BUF_MAX_SIZE { simd_num_registers := some 65536, simd_size := some 32768 }
      = 0
    ∧ BLIS_STACK_BUF_MAX_SIZE { simd_num_registers := some 65536, simd_size := some 32768 }
      ≠ 65536 * 32768 * 2
    ∧ BLIS_SIMD_NUM_REGISTERS { stack_buf_max_size := some 8192 } = 32
    ∧ BLIS_SIMD_SIZE { stack_buf_max_size := some 8192 } = 64
    ∧ BLIS_STACK_BUF_MAX_SIZE { stack_buf_max_size := some 8192 } = 8192
    ∧ BLIS_STACK_BUF_MAX_SIZE { stack_buf_max_size := some 8192 } ≠ 32 * 64 * 2 := by
  decide

/-- Claim C1, amended: in every configuration that leaves
`BLIS_STACK_BUF_MAX_SIZE` itself to the header and in which register count *
vector width * 2 is below 2^31 (so the product fits an `int`), whatever
overrides or defaults the register count and the vector width have, the
resolved `BLIS_STACK_BUF_MAX_SIZE` is register count * vector width * 2; with
register count 32 and vector width 64 it is 4096, in particular when every
name is left to its default. -/
theorem stack_buf_max_size_eq (env : Env) (h : env.stack_buf_max_size = none)
    (hb : BLIS_SIMD_NUM_REGISTERS env * BLIS_SIMD_SIZE env * 2 < 2 ^ 31) :
    BLIS_STACK_BUF_MAX_SIZE env
      = ((BLIS_SIMD_NUM_REGISTERS env * BLIS_SIMD_SIZE env * 2 : Nat) : Int)
    ∧ BLIS_STACK_BUF_MAX_SIZE env
        = ((env.simd_num_registers.getD 32 * env.simd_size.getD 64 * 2 : Nat) : Int)
    ∧ (BLIS_SIMD_NUM_REGISTERS env = 32 → BLIS_SIMD_SIZE env = 64 →
        BLIS_STACK_BUF_MAX_SIZE env = 4096)
    ∧ BLIS_STACK_BUF_MAX_SIZE default_env = 4096 := by
  have h1 := stack_buf_exact env h (by norm_num at hb; exact hb)
  refine ⟨h1, ?_, ?_, by decide⟩
  · rw [h1]
    cases hr : env.simd_num_registers <;> cases hw : env.simd_size <;>
      simp [BLIS_SIMD_NUM_REGISTERS, BLIS_SIMD_SIZE, ifndef_define, hr, hw]
  · intro hr hw
    rw [h1, hr, hw]
    norm_num

theorem stack_buf_max_size_eq_witness :
    BLIS_STACK_BUF_MAX_SIZE { simd_num_registers := some 16, simd_size := some 32 }
      = ((16 * 32 * 2 : Nat) : Int)
    ∧ BLIS_STACK_BUF_MAX_SIZE { page_size := some 8192 } = 4096 :=
  ⟨(stack_buf_max_size_eq { simd_num_registers := some 16, simd_size := some 32 } rfl
      (by decide)).2.1,
   (stack_buf_max_size_eq { page_size := some 8192 } rfl (by decide)).2.2.1
      (by decide) (by decide)⟩

/-- Claim C2: resolution of the four primitives is total (each resolved value is
a plain number, there is no failure result): each of page size, register
count, vector width and SIMD alignment is the override when one is present and
otherwise its default (4096, 32, 64, and the resolved vector width). Adding an
override `v` of one primitive leaves the resolved value of every other
primitive unchanged, except that the SIMD alignment follows the vector width
when the alignment itself is not overridden. -/
theorem primitive_resolution (env : Env) (v : Nat) :
    (BLIS_PAGE_SIZE env = env.page_size.getD 4096
      ∧ BLIS_SIMD_NUM_REGISTERS env = env.simd_num_registers.getD 32
      ∧ BLIS_SIMD_SIZE env = env.simd_size.getD 64
      ∧ BLIS_SIMD_ALIGN_SIZE env = env.simd_align_size.getD (BLIS_SIMD_SIZE env))
    ∧ (BLIS_PAGE_SIZE { env with page_size := some v } = v
      ∧ BLIS_SIMD_NUM_REGISTERS { env with page_size := some v } = BLIS_SIMD_NUM_REGISTERS env
      ∧ BLIS_SIMD_SIZE { env with page_size := some v } = BLIS_SIMD_SIZE env
      ∧ BLIS_SIMD_ALIGN_SIZE { env with page_size := some v } = BLIS_SIMD_ALIGN_SIZE env)
    ∧ (BLIS_SIMD_NUM_REGISTERS { env with simd_num_registers := some v } = v
      ∧ BLIS_PAGE_SIZE { env with simd_num_registers := some v } = BLIS_PAGE_SIZE env
      ∧ BLIS_SIMD_SIZE { env with simd_num_registers := some v } = BLIS_SIMD_SIZE env
      ∧ BLIS_SIMD_ALIGN_SIZE { env with simd_num_registers := some v }
          = BLIS_SIMD_ALIGN_SIZE env)
    ∧ (BLIS_SIMD_ALIGN_SIZE { env with simd_align_size := some v } = v
      ∧ BLIS_PAGE_SIZE { env with simd_align_size := some v } = BLIS_PAGE_SIZE env
      ∧ BLIS_SIMD_NUM_REGISTERS { env with simd_align_size := some v }
          = BLIS_SIMD_NUM_REGISTERS env
      ∧ BLIS_SIMD_SIZE { env with simd_align_size := some v } = BLIS_SIMD_SIZE env)
    ∧ (BLIS_SIMD_SIZE { env with simd_size := some v } = v
      ∧ BLIS_PAGE_SIZE { env with simd_size := some v } = BLIS_PAGE_SIZE env
      ∧ BLIS_SIMD_NUM_REGISTERS { env with simd_size := some v } = BLIS_SIMD_NUM_REGISTERS env
      ∧ BLIS_SIMD_ALIGN_SIZE { env with simd_size := some v } = env.simd_align_size.getD v) := by
  refine ⟨⟨?_, ?_, ?_, ?_⟩, ⟨rfl, rfl, rfl, rfl⟩, ⟨rfl, rfl, rfl, rfl⟩, ⟨rfl, rfl, rfl, rfl⟩,
    ⟨rfl, rfl, rfl, ?_⟩⟩
  · cases hp : env.page_size <;> simp [BLIS_PAGE_SIZE, ifndef_define, hp]
  · cases hp : env.simd_num_registers <;> simp [BLIS_SIMD_NUM_REGISTERS, ifndef_define, hp]
  · cases hp : env.simd_size <;> simp [BLIS_SIMD_SIZE, ifndef_define, hp]
  · cases hp : env.simd_align_size <;> simp [BLIS_SIMD_ALIGN_SIZE, ifndef_define, hp]
  · cases hp : env.simd_align_size <;>
      simp [BLIS_SIMD_ALIGN_SIZE, BLIS_SIMD_SIZE, ifndef_define, hp]

/-! ## Alignment constants -/

/-- Claim C3, refuted as stated: under the cortexa9 family header the
user-domain address alignment `BLIS_HEAP_ADDR_ALIGN_SIZE` is 16 while the
resolved vector width `BLIS_SIMD_SIZE` is 64, so the two differ. -/
theorem cortexa9_heap_align_differs_from_simd_size :
    BLIS_HEAP_ADDR_ALIGN_SIZE cortexa9_env = 16
    ∧ BLIS_SIMD_SIZE cortexa9_env = 64
    ∧ BLIS_HEAP_ADDR_ALIGN_SIZE cortexa9_env ≠ BLIS_SIMD_SIZE cortexa9_env := by
  decide

/-- Claim C3, amended: in every configuration the pool-domain alignment
`BLIS_POOL_ADDR_ALIGN_SIZE` is the resolved page size and the user-domain
alignment `BLIS_HEAP_ADDR_ALIGN_SIZE` is the resolved SIMD alignment size
`BLIS_SIMD_ALIGN_SIZE`: the resolved vector width when `BLIS_SIMD_ALIGN_SIZE`
is not overridden, and the overriding value when it is. Hence it equals the
resolved vector width exactly when `BLIS_SIMD_ALIGN_SIZE` is not overridden or
is overridden to the very value of the resolved vector width; under cortexa9 it
is 16 while the vector width is 64. -/
theorem pool_and_heap_alignment (env : Env) :
    BLIS_POOL_ADDR_ALIGN_SIZE env = BLIS_PAGE_SIZE env
    ∧ BLIS_HEAP_ADDR_ALIGN_SIZE env = BLIS_SIMD_ALIGN_SIZE env
    ∧ (env.simd_align_size = none → BLIS_HEAP_ADDR_ALIGN_SIZE env = BLIS_SIMD_SIZE env)
    ∧ (∀ a, env.simd_align_size = some a → BLIS_HEAP_ADDR_ALIGN_SIZE env = a)
    ∧ (BLIS_HEAP_ADDR_ALIGN_SIZE env = BLIS_SIMD_SIZE env
        ↔ (env.simd_align_size = none ∨ env.simd_align_size = some (BLIS_SIMD_SIZE env)))
    ∧ BLIS_HEAP_ADDR_ALIGN_SIZE cortexa9_env = 16
    ∧ BLIS_SIMD_SIZE cortexa9_env = 64 := by
  have hnone : env.simd_align_size = none →
      BLIS_HEAP_ADDR_ALIGN_SIZE env = BLIS_SIMD_SIZE env := by
    intro h
    simp [BLIS_HEAP_ADDR_ALIGN_SIZE, BLIS_SIMD_ALIGN_SIZE, ifndef_define, h]
  have hsome : ∀ a, env.simd_align_size = some a → BLIS_HEAP_ADDR_ALIGN_SIZE env = a := by
    intro a h
    simp [BLIS_HEAP_ADDR_ALIGN_SIZE, BLIS_SIMD_ALIGN_SIZE, ifndef_define, h]
  refine ⟨rfl, rfl, hnone, hsome, ?_, by decide, by decide⟩
  constructor
  · intro heq
    cases ha : env.simd_align_size with
    | none => exact Or.inl rfl
    | some a =>
      right
      rw [← heq, hsome a ha]
  · rintro (h | h)
    · exact hnone h
    · exact hsome _ h

theorem pool_and_heap_alignment_witness :
    BLIS_HEAP_ADDR_ALIGN_SIZE { simd_size := some 32 }
      = BLIS_SIMD_SIZE { simd_size := some 32 }
    ∧ BLIS_HEAP_ADDR_ALIGN_SIZE { simd_size := some 32, simd_align_size := some 8 } = 8
    ∧ BLIS_HEAP_ADDR_ALIGN_SIZE { simd_align_size := some 64 }
      = BLIS_SIMD_SIZE { simd_align_size := some 64 } :=
  ⟨(pool_and_heap_alignment { simd_size := some 32 }).2.2.1 rfl,
   (pool_and_heap_alignment { simd_size := some 32, simd_align_size := some 8 }).2.2.2.1 8 rfl,
   (pool_and_heap_alignment { simd_align_size := some 64 }).2.2.2.2.1.mpr (Or.inr rfl)⟩

/-- Claim C4: in every configuration the user-domain address alignment, the
user-domain leading-dimension alignment and the stack-buffer alignment all
equal the resolved `BLIS_SIMD_ALIGN_SIZE`. Including the cortexa9 header makes
all three 16 and leaves vector width, page size, pool alignment and
stack-buffer size as they were; when cortexa9 is the one selected family on
top of nothing else, the three are 16, the vector width 64, the page size and
the pool alignment 4096 and the stack-buffer size 4096. -/
theorem simd_align_consumers (env : Env) (others : Family → Env → Env) :
    (BLIS_HEAP_ADDR_ALIGN_SIZE env = BLIS_SIMD_ALIGN_SIZE env
      ∧ BLIS_HEAP_STRIDE_ALIGN_SIZE env = BLIS_SIMD_ALIGN_SIZE env
      ∧ BLIS_STACK_BUF_ALIGN_SIZE env = BLIS_SIMD_ALIGN_SIZE env)
    ∧ (BLIS_SIMD_ALIGN_SIZE (bli_family_cortexa9 env) = 16
      ∧ BLIS_HEAP_ADDR_ALIGN_SIZE (bli_family_cortexa9 env) = 16
      ∧ BLIS_HEAP_STRIDE_ALIGN_SIZE (bli_family_cortexa9 env) = 16
      ∧ BLIS_STACK_BUF_ALIGN_SIZE (bli_family_cortexa9 env) = 16
      ∧ BLIS_SIMD_SIZE (bli_family_cortexa9 env) = BLIS_SIMD_SIZE env
      ∧ BLIS_PAGE_SIZE (bli_family_cortexa9 env) = BLIS_PAGE_SIZE env
      ∧ BLIS_POOL_ADDR_ALIGN_SIZE (bli_family_cortexa9 env) = BLIS_POOL_ADDR_ALIGN_SIZE env
      ∧ BLIS_STACK_BUF_MAX_SIZE (bli_family_cortexa9 env) = BLIS_STACK_BUF_MAX_SIZE env)
    ∧ (bli_arch_config others (only_family .CORTEXA9) default_env = .ok cortexa9_env
      ∧ BLIS_SIMD_ALIGN_SIZE cortexa9_env = 16
      ∧ BLIS_HEAP_ADDR_ALIGN_SIZE cortexa9_env = 16
      ∧ BLIS_HEAP_STRIDE_ALIGN_SIZE cortexa9_env = 16
      ∧ BLIS_STACK_BUF_ALIGN_SIZE cortexa9_env = 16
      ∧ BLIS_SIMD_SIZE cortexa9_env = 64
      ∧ BLIS_PAGE_SIZE cortexa9_env = 4096
      ∧ BLIS_POOL_ADDR_ALIGN_SIZE cortexa9_env = 4096
      ∧ BLIS_STACK_BUF_MAX_SIZE cortexa9_env = 4096) := by
  refine ⟨⟨rfl, rfl, rfl⟩, ⟨rfl, rfl, rfl, rfl, rfl, rfl, rfl, rfl⟩, ?_,
    by decide, by decide, by decide, by decide, by decide, by decide, by decide, by decide⟩
  rw [run_ladder_ok]
  have hinc : included_headers (only_family .CORTEXA9) = [.CORTEXA9] := by decide
  rw [hinc]
  rfl

/-! ## Family selection -/

/-- Claim C5, refuted as stated: with no `BLIS_FAMILY_*` name defined the
ladder is accepted, includes no family header and leaves the environment
untouched, so every constant silently resolves to its library default; with two
names defined (cortexa15 and cortexa9) both headers are included. -/
theorem family_selection_not_validated :
    selected_count no_family = 0
    ∧ included_headers no_family = []
    ∧ bli_arch_config (fun _ e => e) no_family default_env = .ok default_env
    ∧ BLIS_SIMD_ALIGN_SIZE default_env = 64
    ∧ BLIS_PAGE_SIZE default_env = 4096
    ∧ selected_count (fun f => decide (f = .CORTEXA15 ∨ f = .CORTEXA9)) = 2
    ∧ included_headers (fun f => decide (f = .CORTEXA15 ∨ f = .CORTEXA9))
        = [.CORTEXA15, .CORTEXA9]
    ∧ bli_arch_config (fun _ e => e) (fun f => decide (f = .CORTEXA15 ∨ f = .CORTEXA9))
        default_env = .ok cortexa9_env := by
  refine ⟨by decide, by decide, rfl, by decide, by decide, by decide, by decide, rfl⟩

/-- Claim C5, amended: the ladder performs no validation of the selection. For
every set of defined `BLIS_FAMILY_*` names it is accepted and includes exactly
the headers of the selected families, in ladder order, whose effects are
applied one after the other; with exactly one family selected exactly that
header is included, with none selected no header is included and the
environment is unchanged. -/
theorem family_ladder_accepts_any_selection (others : Family → Env → Env)
    (sel : Family → Bool) (env : Env) (f : Family) :
    bli_arch_config others sel env
      = .ok ((included_headers sel).foldl (fun e g => family_header others g e) env)
    ∧ (f ∈ included_headers sel ↔ sel f = true)
    ∧ (included_headers sel).Nodup
    ∧ included_headers (only_family f) = [f]
    ∧ bli_arch_config others (only_family f) env = .ok (family_header others f env)
    ∧ included_headers no_family = []
    ∧ bli_arch_config others no_family env = .ok env := by
  have hone : included_headers (only_family f) = [f] := by cases f <;> decide
  refine ⟨run_ladder_ok others sel env, mem_included_headers sel f, ?_, hone, ?_, by decide, ?_⟩
  · unfold included_headers
    refine List.Nodup.filterMap ?_ (by decide)
    intro a b c ha hb
    cases a <;> cases b <;> simp_all
  · rw [run_ladder_ok, hone]; rfl
  · rw [run_ladder_ok]
    have : included_headers no_family = [] := by decide
    rw [this]; rfl

/-! ## cortexa9 block sizes -/

/-- Claim C7: when no allocator name is overridden, the pool pair is
(hbw_malloc, hbw_free) exactly when `BLIS_ENABLE_MEMKIND` is defined and
`BLIS_DISABLE_MEMKIND` is not, and (malloc, free) in every other case (so
`BLIS_DISABLE_MEMKIND` wins when both are defined); the internal-domain and
user-domain pairs are (malloc, free) whatever the memkind flags are. -/
theorem default_allocators (env : Env)
    (hmp : env.malloc_pool = none) (hfp : env.free_pool = none)
    (hmi : env.malloc_intl = none) (hfi : env.free_intl = none)
    (hmu : env.malloc_user = none) (hfu : env.free_user = none) :
    (((BLIS_MALLOC_POOL env).value, (BLIS_FREE_POOL env).value) = ("hbw_malloc", "hbw_free")
        ↔ (env.enable_memkind = true ∧ env.disable_memkind = false))
    ∧ (((BLIS_MALLOC_POOL env).value, (BLIS_FREE_POOL env).value) = ("malloc", "free")
        ↔ ¬ (env.enable_memkind = true ∧ env.disable_memkind = false))
    ∧ ((BLIS_MALLOC_INTL env).value, (BLIS_FREE_INTL env).value) = ("malloc", "free")
    ∧ ((BLIS_MALLOC_USER env).value, (BLIS_FREE_USER env).value) = ("malloc", "free")
    ∧ ((BLIS_MALLOC_POOL env).overridden = false ∧ (BLIS_FREE_POOL env).overridden = false
        ∧ (BLIS_MALLOC_INTL env).overridden = false ∧ (BLIS_FREE_INTL env).overridden = false
        ∧ (BLIS_MALLOC_USER env).overridden = false
        ∧ (BLIS_FREE_USER env).overridden = false) := by
  refine ⟨?_, ?_, ?_, ?_, ?_⟩
  · cases he : env.enable_memkind <;> cases hd : env.disable_memkind <;>
      simp [BLIS_MALLOC_POOL, BLIS_FREE_POOL, BLIS_ENABLE_MEMKIND, ifndef_define,
        hmp, hfp, he, hd]
  · cases he : env.enable_memkind <;> cases hd : env.disable_memkind <;>
      simp [BLIS_MALLOC_POOL, BLIS_FREE_POOL, BLIS_ENABLE_MEMKIND, ifndef_define,
        hmp, hfp, he, hd]
  · simp [BLIS_MALLOC_INTL, BLIS_FREE_INTL, ifndef_define, hmi, hfi]
  · simp [BLIS_MALLOC_USER, BLIS_FREE_USER, ifndef_define, hmu, hfu]
  · simp [BLIS_MALLOC_POOL, BLIS_FREE_POOL, BLIS_MALLOC_INTL, BLIS_FREE_INTL,
      BLIS_MALLOC_USER, BLIS_FREE_USER, ifndef_define, hmp, hfp, hmi, hfi, hmu, hfu]

theorem default_allocators_witness :
    ((BLIS_MALLOC_POOL { enable_memkind := true }).value,
        (BLIS_FREE_POOL { enable_memkind := true }).value) = ("hbw_malloc", "hbw_free")
    ∧ ((BLIS_MALLOC_POOL { enable_memkind := true, disable_memkind := true }).value,
        (BLIS_FREE_POOL { enable_memkind := true, disable_memkind := true }).value)
        = ("malloc", "free")
    ∧ ((BLIS_MALLOC_USER { enable_memkind := true }).value,
        (BLIS_FREE_USER { enable_memkind := true }).value) = ("malloc", "free") :=
  ⟨(default_allocators { enable_memkind := true } rfl rfl rfl rfl rfl rfl).1.mpr ⟨rfl, rfl⟩,
   (default_allocators { enable_memkind := true, disable_memkind := true }
      rfl rfl rfl rfl rfl rfl).2.1.mpr (by decide),
   (default_allocators { enable_memkind := true } rfl rfl rfl rfl rfl rfl).2.2.2.1⟩

/-- Claim C8, refuted as stated: when only `BLIS_MALLOC_POOL` is defined
beforehand, the resolved pool allocate function is the override while the
resolved pool release function is the default `free`: a mixed pair. -/
theorem pool_pair_can_be_mixed :
    (BLIS_MALLOC_POOL { malloc_pool := some "my_pool_malloc" }).overridden = true
    ∧ (BLIS_FREE_POOL { malloc_pool := some "my_pool_malloc" }).overridden = false
    ∧ (BLIS_MALLOC_POOL { malloc_pool := some "my_pool_malloc" }).value = "my_pool_malloc"
    ∧ (BLIS_FREE_POOL { malloc_pool := some "my_pool_malloc" }).value = "free" := by
  decide

/-- Claim C8, amended: the two functions of the pool pair are resolved
independently. The resolved `BLIS_MALLOC_POOL` is an override exactly when
`BLIS_MALLOC_POOL` was defined beforehand, and likewise `BLIS_FREE_POOL`; so
the resolved pair is unmixed exactly when both or neither were defined. With
both defined the pair is the two overrides; with neither it is one of the
default pairs (malloc, free) and (hbw_malloc, hbw_free). -/
theorem pool_pair_resolved_independently (env : Env) :
    ((BLIS_MALLOC_POOL env).overridden = env.malloc_pool.isSome)
    ∧ ((BLIS_FREE_POOL env).overridden = env.free_pool.isSome)
    ∧ ((BLIS_MALLOC_POOL env).overridden = (BLIS_FREE_POOL env).overridden
        ↔ env.malloc_pool.isSome = env.free_pool.isSome)
    ∧ (∀ m f, env.malloc_pool = some m → env.free_pool = some f →
        ((BLIS_MALLOC_POOL env).value, (BLIS_FREE_POOL env).value) = (m, f))
    ∧ (env.malloc_pool = none → env.free_pool = none →
        ((BLIS_MALLOC_POOL env).value, (BLIS_FREE_POOL env).value) = ("malloc", "free")
        ∨ ((BLIS_MALLOC_POOL env).value, (BLIS_FREE_POOL env).value)
            = ("hbw_malloc", "hbw_free")) := by
  have hm : (BLIS_MALLOC_POOL env).overridden = env.malloc_pool.isSome := by
    cases h : env.malloc_pool <;> simp [BLIS_MALLOC_POOL, ifndef_define, h]
  have hf : (BLIS_FREE_POOL env).overridden = env.free_pool.isSome := by
    cases h : env.free_pool <;> simp [BLIS_FREE_POOL, ifndef_define, h]
  refine ⟨hm, hf, by rw [hm, hf], ?_, ?_⟩
  · intro m f h1 h2
    simp [BLIS_MALLOC_POOL, BLIS_FREE_POOL, ifndef_define, h1, h2]
  · intro h1 h2
    cases hk : BLIS_ENABLE_MEMKIND env <;>
      simp [BLIS_MALLOC_POOL, BLIS_FREE_POOL, ifndef_define, h1, h2, hk]

theorem pool_pair_resolved_independently_witness :
    ((BLIS_MALLOC_POOL { malloc_pool := some "my_malloc", free_pool := some "my_free" }).value,
      (BLIS_FREE_POOL { malloc_pool := some "my_malloc", free_pool := some "my_free" }).value)
      = ("my_malloc", "my_free")
    ∧ (((BLIS_MALLOC_POOL { enable_memkind := true }).value,
          (BLIS_FREE_POOL { enable_memkind := true }).value) = ("malloc", "free")
        ∨ ((BLIS_MALLOC_POOL { enable_memkind := true }).value,
          (BLIS_FREE_POOL { enable_memkind := true }).value) = ("hbw_malloc", "hbw_free")) :=
  ⟨(pool_pair_resolved_independently
      { malloc_pool := some "my_malloc", free_pool := some "my_free" }).2.2.2.1
      "my_malloc" "my_free" rfl rfl,
   (pool_pair_resolved_independently { enable_memkind := true }).2.2.2.2 rfl rfl⟩

/-! ## Umbrella sizing -/

/-- Claim C9, refuted as stated: for the members (1, 1) and (65536, 32768) the
umbrella sets register count 65536 and vector width 32768, its product
65536 * 32768 * 2 does not fit an `int` and its derived stack-buffer size is 0,
below the size 2 derived for the member (1, 1); so the derivation is not
monotone either. -/
theorem umbrella_stack_buf_can_be_smaller :
    (1, 1) ∈ [((1 : Nat), (1 : Nat)), (65536, 32768)]
    ∧ BLIS_SIMD_NUM_REGISTERS (umbrella_env [(1, 1), (65536, 32768)]) = 65536
    ∧ BLIS_SIMD_SIZE (umbrella_env [(1, 1), (65536, 32768)]) = 32768
    ∧ BLIS_STACK_BUF_MAX_SIZE (umbrella_env [(1, 1), (65536, 32768)]) = 0
    ∧ BLIS_STACK_BUF_MAX_SIZE (member_env (1, 1)) = 2
    ∧ BLIS_STACK_BUF_MAX_SIZE (umbrella_env [(1, 1), (65536, 32768)])
        < BLIS_STACK_BUF_MAX_SIZE (member_env (1, 1))
    ∧ BLIS_STACK_BUF_MAX_SIZE (member_env (65536, 32768))
        < BLIS_STACK_BUF_MAX_SIZE (member_env (1, 1)) := by
  decide

/-- Claim C9, amended: for every list of sub-configurations `(r_i, w_i)` whose
umbrella product (max r_i) * (max w_i) * 2 is below 2^31 (so it fits an
`int`), and every member of the list, the stack-buffer size derived for the
umbrella family is (max r_i) * (max w_i) * 2 and is at least the member's
derived size r_i * w_i * 2; and the derivation is monotone in register count
and vector width as long as the larger product r1 * w1 * 2 is below 2^31. -/
theorem umbrella_stack_buf_sufficient (members : List (Nat × Nat)) (m : Nat × Nat)
    (hm : m ∈ members)
    (hb : list_max (members.map Prod.fst) * list_max (members.map Prod.snd) * 2 < 2 ^ 31)
    (r r1 w w1 : Nat) (hr : r ≤ r1) (hw : w ≤ w1) (hb1 : r1 * w1 * 2 < 2 ^ 31) :
    BLIS_STACK_BUF_MAX_SIZE (umbrella_env members)
      = ((list_max (members.map Prod.fst) * list_max (members.map Prod.snd) * 2 : Nat) : Int)
    ∧ BLIS_STACK_BUF_MAX_SIZE (member_env m) = ((m.1 * m.2 * 2 : Nat) : Int)
    ∧ BLIS_STACK_BUF_MAX_SIZE (member_env m) ≤ BLIS_STACK_BUF_MAX_SIZE (umbrella_env members)
    ∧ BLIS_STACK_BUF_MAX_SIZE (member_env (r, w))
        ≤ BLIS_STACK_BUF_MAX_SIZE (member_env (r1, w1)) := by
  norm_num at hb hb1
  have h1 : m.1 ≤ list_max (members.map Prod.fst) :=
    le_list_max _ _ (List.mem_map_of_mem Prod.fst hm)
  have h2 : m.2 ≤ list_max (members.map Prod.snd) :=
    le_list_max _ _ (List.mem_map_of_mem Prod.snd hm)
  have hle : m.1 * m.2 * 2
      ≤ list_max (members.map Prod.fst) * list_max (members.map Prod.snd) * 2 :=
    Nat.mul_le_mul_right 2 (Nat.mul_le_mul h1 h2)
  have hle1 : r * w * 2 ≤ r1 * w1 * 2 := Nat.mul_le_mul_right 2 (Nat.mul_le_mul hr hw)
  have hu : BLIS_STACK_BUF_MAX_SIZE (umbrella_env members)
      = ((list_max (members.map Prod.fst) * list_max (members.map Prod.snd) * 2 : Nat) : Int) :=
    stack_buf_exact (umbrella_env members) rfl hb
  have hmem : ∀ p : Nat × Nat, p.1 * p.2 * 2 < 2147483648 →
      BLIS_STACK_BUF_MAX_SIZE (member_env p) = ((p.1 * p.2 * 2 : Nat) : Int) :=
    fun p hp => stack_buf_exact (member_env p) rfl hp
  refine ⟨hu, hmem m (lt_of_le_of_lt hle hb), ?_, ?_⟩
  · rw [hu, hmem m (lt_of_le_of_lt hle hb)]
    exact_mod_cast hle
  · rw [hmem (r, w) (lt_of_le_of_lt hle1 hb1), hmem (r1, w1) hb1]
    exact_mod_cast hle1

theorem umbrella_stack_buf_sufficient_witness :
    BLIS_STACK_BUF_MAX_SIZE (umbrella_env [(32, 16), (16, 64)])
      = ((list_max [32, 16] * list_max [16, 64] * 2 : Nat) : Int)
    ∧ BLIS_STACK_BUF_MAX_SIZE (member_env (32, 16))
        ≤ BLIS_STACK_BUF_MAX_SIZE (umbrella_env [(32, 16), (16, 64)])
    ∧ BLIS_STACK_BUF_MAX_SIZE (member_env (16, 32))
        ≤ BLIS_STACK_BUF_MAX_SIZE (member_env (32, 64)) :=
  have h := umbrella_stack_buf_sufficient [(32, 16), (16, 64)] (32, 16) (by decide)
    (by decide) 16 32 32 64 (by decide) (by decide) (by decide)
  ⟨h.1, h.2.2.1, h.2.2.2⟩

/-! ## Pool blocks are SIMD-aligned -/

/-- Claim C10: in the all-defaults configuration the user-domain alignment is 64
and in the cortexa9 configuration it is 16; in both the pool-domain alignment
is 4096; all of these are powers of two, the user-domain alignment divides the
pool-domain alignment, and every address that is a multiple of the pool
alignment is a multiple of the user alignment. -/
theorem pool_alignment_implies_heap_alignment (a : Nat) :
    (BLIS_HEAP_ADDR_ALIGN_SIZE default_env = 64
      ∧ BLIS_POOL_ADDR_ALIGN_SIZE default_env = 4096
      ∧ BLIS_HEAP_ADDR_ALIGN_SIZE default_env = 2 ^ 6
      ∧ BLIS_POOL_ADDR_ALIGN_SIZE default_env = 2 ^ 12
      ∧ BLIS_HEAP_ADDR_ALIGN_SIZE default_env ∣ BLIS_POOL_ADDR_ALIGN_SIZE default_env
      ∧ (a % BLIS_POOL_ADDR_ALIGN_SIZE default_env = 0 →
          a % BLIS_HEAP_ADDR_ALIGN_SIZE default_env = 0))
    ∧ (BLIS_HEAP_ADDR_ALIGN_SIZE cortexa9_env = 16
      ∧ BLIS_POOL_ADDR_ALIGN_SIZE cortexa9_env = 4096
      ∧ BLIS_HEAP_ADDR_ALIGN_SIZE cortexa9_env = 2 ^ 4
      ∧ BLIS_POOL_ADDR_ALIGN_SIZE cortexa9_env = 2 ^ 12
      ∧ BLIS_HEAP_ADDR_ALIGN_SIZE cortexa9_env ∣ BLIS_POOL_ADDR_ALIGN_SIZE cortexa9_env
      ∧ (a % BLIS_POOL_ADDR_ALIGN_SIZE cortexa9_env = 0 →
          a % BLIS_HEAP_ADDR_ALIGN_SIZE cortexa9_env = 0)) := by
  have hd : BLIS_HEAP_ADDR_ALIGN_SIZE default_env = 64 := by decide
  have hc : BLIS_HEAP_ADDR_ALIGN_SIZE cortexa9_env = 16 := by decide
  have pd : BLIS_POOL_ADDR_ALIGN_SIZE default_env = 4096 := by decide
  have pc : BLIS_POOL_ADDR_ALIGN_SIZE cortexa9_env = 4096 := by decide
  refine ⟨⟨hd, pd, ?_, ?_, ?_, ?_⟩, ⟨hc, pc, ?_, ?_, ?_, ?_⟩⟩
  · rw [hd]; norm_num
  · rw [pd]; norm_num
  · rw [hd, pd]; exact ⟨64, by norm_num⟩
  · rw [hd, pd]; exact fun h => (pool_aligned_imp a h).1
  · rw [hc]; norm_num
  · rw [pc]; norm_num
  · rw [hc, pc]; exact ⟨256, by norm_num⟩
  · rw [hc, pc]; exact fun h => (pool_aligned_imp a h).2

theorem pool_alignment_implies_heap_alignment_witness :
    12288 % BLIS_HEAP_ADDR_ALIGN_SIZE default_env = 0
    ∧ 12288 % BLIS_HEAP_ADDR_ALIGN_SIZE cortexa9_env = 0 :=
  ⟨(pool_alignment_implies_heap_alignment 12288).1.2.2.2.2.2 (by decide),
   (pool_alignment_implies_heap_alignment 12288).2.2.2.2.2.2 (by decide)⟩

end Blis
